import Mathlib

set_option maxRecDepth 40000

/-!
Verification development for the ExplorIr CO2 sensor driver
(src/explorir.c, src/explorir.h).

The driver is embedded shallowly:

* bytes are `Nat` (ASCII codes), the 128-byte UART receive buffer is a
  `List Nat` of length 128;
* the handler struct `explorir_handler_t` becomes a Lean structure; the
  `explorir_tx` callback is modelled by returning the list of transmitted
  frames (the transmission trace) from each session operation;
* machine integers are `Nat`/`Int` with explicit `% 2^16` / `% 2^32`
  where the C code stores into `uint16_t` / `uint32_t` fields;
* the response scanner `explorir_process_response` is a fuel-indexed
  loop over an explicit loop body (`loopBody`), one constructor of
  `LoopStep` per way the C `while`/`switch` can proceed.  An attempt to
  read an index outside the buffer (which in C would be an out-of-bounds
  read of `explorir_data`) is made explicit as the `oob` outcome carrying
  the handler state at the moment of that read; everything after such a
  read is undefined behaviour in C and is not modelled further.
-/

/-! ## Return codes and constants (explorir.h) -/

inductive explorir_retcode_t where
  | EXPLORIR_ERR_INVALID_MODE
  | EXPLORIR_ERR_TIMEOUT
  | EXPLORIR_ERR_UNRECOGNIZED_COMMAND
  | EXPLORIR_ERR_INVALID_INPUT
  | EXPLORIR_SUCCESS
deriving DecidableEq

/-- Operation-mode enum values (explorir_mode_t).  C enums are `int`
backed, and `explorir_set_operation_mode` can receive any integer, so
modes are modelled as `Int`. -/
def EXPLORIR_MODE_COMMAND : Int := 0

def EXPLORIR_MODE_STREAMING : Int := 1

def EXPLORIR_MODE_POLLING : Int := 2

def EXPLORIR_MODE_DEFAULT : Int := EXPLORIR_MODE_COMMAND

def UART_RX_BUF_SIZE : Nat := 128

def MAX_DIGITAL_FILTER : Nat := 65365

def DIGITAL_FILTER_DEFAULT : Nat := 16

/-- RESPONSE_TIMEOUT, 0x989680 in the header. -/
def RESPONSE_TIMEOUT : Nat := 10000000

/-! ## The handler record (explorir_handler_t)

The `explorir_tx` function pointer is not a field here: transmission is
modelled by the trace returned from each session operation. -/

structure explorir_handler_t where
  explorir_data : List Nat
  err_code : explorir_retcode_t
  scaling_factor : Nat
  current_filtered_co2 : Nat
  current_unfiltered_co2 : Nat
  digital_filter : Nat
  zero_point : Nat
  pressure_and_concentration_compensation : Nat
  current_mode : Int
deriving DecidableEq

/-! ## Byte access -/

/-- Read a byte of the receive buffer; `none` models an out-of-bounds
access of the C array. -/
def readByte : List Nat → Nat → Option Nat
  | [], _ => none
  | b :: _, 0 => some b
  | _ :: rest, n + 1 => readByte rest n

/-- The `while(data[i] == '0') i++;` leading-zero skip of each parse
case.  The fuel is fixed to `buf.length + 1 - i` in `skipZeros`, which
always suffices because the index grows by 1 per in-bounds read. -/
def skipZerosAux (buf : List Nat) : Nat → Nat → Option Nat
  | 0, _ => none
  | fuel + 1, i =>
    match readByte buf i with
    | none => none
    | some b => if b = 48 then skipZerosAux buf fuel (i + 1) else some i

def skipZeros (buf : List Nat) (i : Nat) : Option Nat :=
  skipZerosAux buf (buf.length + 1 - i) i

/-- The `memcpy(dst, &data[i], 5)` of each parse case: the five bytes at
`i .. i+4`, `none` when any of them is out of bounds. -/
def read5 (buf : List Nat) (i : Nat) : Option (List Nat) :=
  (readByte buf i).bind fun a =>
  (readByte buf (i + 1)).bind fun b =>
  (readByte buf (i + 2)).bind fun c =>
  (readByte buf (i + 3)).bind fun d =>
  (readByte buf (i + 4)).map fun e => [a, b, c, d, e]

/-! ## atoi

C `atoi`: skip whitespace, optional sign, then decimal digits.  The
copied field is a 5-byte array; we model `atoi` as stopping at the end
of those five bytes (the benign stack layout in which the byte after
the array is not a digit; with five digit bytes the C call would read
one byte past the local array). -/

def isSpaceChar (c : Nat) : Bool := c == 32 || (9 ≤ c && c ≤ 13)

def digitsVal : List Nat → Nat → Nat
  | [], acc => acc
  | c :: cs, acc =>
    if 48 ≤ c ∧ c ≤ 57 then digitsVal cs (acc * 10 + (c - 48)) else acc

def atoi (s : List Nat) : Int :=
  match s.dropWhile isSpaceChar with
  | [] => 0
  | c :: cs =>
    if c = 43 then (digitsVal cs 0 : Int)
    else if c = 45 then -(digitsVal cs 0 : Int)
    else (digitsVal (c :: cs) 0 : Int)

/-! ## The response scanner (explorir_process_response) -/

/-- The shared shape `i += 2; while(data[i]=='0') i++;
memcpy(field, &data[i], 5); atoi(field)` of every recognized-tag case.  `j` is
already `i + 2`. -/
def parseField (buf : List Nat) (j : Nat) : Option Int :=
  (skipZeros buf j).bind fun k => (read5 buf k).map atoi

/-- One step of the scanner's `while` loop:
`exit` = terminator reached or a `goto EndWhile` case,
`next` = `break`/skip cases that continue the loop,
`oobRead` = the C code would read `explorir_data` out of bounds here. -/
inductive LoopStep where
  | exit : explorir_handler_t → LoopStep
  | next : Nat → explorir_handler_t → LoopStep
  | oobRead : explorir_handler_t → LoopStep

/-- The loop body of `explorir_process_response`: the terminator test
and the `switch` over `explorir_data[i]`.  Tag bytes: '.' 46, 'Z' 90,
'z' 122, 'K' 75, 'A' 65, 'a' 97, 'F' 70, 'G' 71, 'U' 85, 'u' 117,
'X' 88, 'S' 83, 's' 115; terminator '\n' 10; ' ' 32 and every other
byte just advance the cursor. -/
def loopBody (buf : List Nat) (i : Nat) (st : explorir_handler_t) : LoopStep :=
  match readByte buf i with
  | none => .oobRead st
  | some b =>
    if b = 10 then .exit st
    else if b = 46 then
      match parseField buf (i + 2) with
      | none => .oobRead st
      | some v => .exit { st with scaling_factor := (v % 65536).toNat }
    else if b = 90 then
      match parseField buf (i + 2) with
      | none => .oobRead st
      | some v =>
          .next 9 { st with current_filtered_co2 :=
            ((v * (st.scaling_factor : Int)) % 4294967296).toNat }
    else if b = 122 then
      match parseField buf (i + 2) with
      | none => .oobRead st
      | some v =>
          .exit { st with current_unfiltered_co2 :=
            ((v * (st.scaling_factor : Int)) % 4294967296).toNat }
    else if b = 75 then
      match parseField buf (i + 2) with
      | none => .oobRead st
      | some v => .exit { st with current_mode := v }
    else if b = 65 ∨ b = 97 then
      match parseField buf (i + 2) with
      | none => .oobRead st
      | some v => .exit { st with digital_filter := (v % 4294967296).toNat }
    else if b = 70 ∨ b = 71 ∨ b = 85 ∨ b = 117 ∨ b = 88 then
      match parseField buf (i + 2) with
      | none => .oobRead st
      | some v => .exit { st with zero_point := (v % 4294967296).toNat }
    else if b = 83 ∨ b = 115 then
      match parseField buf (i + 2) with
      | none => .oobRead st
      | some v =>
          .exit { st with pressure_and_concentration_compensation :=
            (v % 4294967296).toNat }
    else .next (i + 1) st

/-- The `memset(explorir_data, 0, sizeof(explorir_data))` at `EndWhile`. -/
def clearBuffer (st : explorir_handler_t) : explorir_handler_t :=
  { st with explorir_data := List.replicate 128 0 }

inductive ScanOutcome where
  | done : explorir_handler_t → ScanOutcome
  | oob : explorir_handler_t → ScanOutcome
  | fuelOut : ScanOutcome
deriving DecidableEq

def scanLoop (buf : List Nat) : Nat → Nat → explorir_handler_t → ScanOutcome
  | 0, _, _ => .fuelOut
  | fuel + 1, i, st =>
    match loopBody buf i st with
    | .exit st2 => .done (clearBuffer st2)
    | .oobRead st2 => .oob st2
    | .next i2 st2 => scanLoop buf fuel i2 st2

/-- The function `explorir_process_response`: scan the handler's receive buffer from
index 0; on loop exit the buffer has been cleared.  The C loop is not
fuel-bounded; `fuel` only truncates the model, and every theorem below
either supplies enough fuel or quantifies over it. -/
def explorir_process_response (fuel : Nat) (h : explorir_handler_t) : ScanOutcome :=
  scanLoop h.explorir_data fuel 0 h

/-- Bytes the scanner's `switch` recognizes as field tags. -/
def isTagByte (b : Nat) : Bool :=
  b == 46 || b == 90 || b == 122 || b == 75 || b == 65 || b == 97 ||
  b == 70 || b == 71 || b == 85 || b == 117 || b == 88 || b == 83 || b == 115

/-! ## Decimal rendering (sprintf "%d")

`decDigits n` is the list of ASCII digit bytes of `n`, most significant
first, with no leading zeros ("0" for 0) — the `sprintf(buf, "%d", x)`
of the integer-argument command builders.  Structural fuel `n + 1`
always suffices since the value shrinks by a factor of 10 per step. -/

def decDigitsAux : Nat → Nat → List Nat
  | 0, _ => []
  | fuel + 1, n =>
    if n < 10 then [48 + n] else decDigitsAux fuel (n / 10) ++ [48 + n % 10]

def decDigits (n : Nat) : List Nat := decDigitsAux (n + 1) n

/-! ## Transport delivery (explorir_update_data) and session plumbing

`explorir_update_data` is the host's receive path: a `memcpy` of the
reply over the front of the receive buffer.  A session operation in the
real system is: transmit, (reply arrives asynchronously), parse.  The
asynchronous arrival is modelled by an environment `env : Nat → Option
(List Nat)`: before the k-th parse of a run, `env k = some r` means the
host delivered reply `r` into the buffer (`explorir_update_data r`),
`none` means nothing arrived and the parse sees the buffer as is. -/

def explorir_update_data (p : List Nat) (h : explorir_handler_t) : explorir_handler_t :=
  { h with explorir_data := p ++ h.explorir_data.drop p.length }

def applyDelivery (env : Nat → Option (List Nat)) (k : Nat)
    (h : explorir_handler_t) : explorir_handler_t :=
  match env k with
  | some r => explorir_update_data r h
  | none => h

/-- Result of one session operation.
`rejected c h` — argument validation failed: `c` returned, handler `h`
untouched, nothing transmitted;
`completed c h` — transmitted, parsed, returned `c = h.err_code`;
`overrun h` — the parse would read the buffer out of bounds (undefined
behaviour in C, not modelled past this point);
`noFuel` — model fuel exhausted. -/
inductive SessionResult where
  | rejected : explorir_retcode_t → explorir_handler_t → SessionResult
  | completed : explorir_retcode_t → explorir_handler_t → SessionResult
  | overrun : explorir_handler_t → SessionResult
  | noFuel : SessionResult
deriving DecidableEq

/-- Shared tail of every transmitting operation:
`explorir_tx(msg, size); explorir_process_response(h); return h->err_code;`
The second component is the next delivery index, the third the
transmission trace. -/
def txAndProcess (fuel : Nat) (env : Nat → Option (List Nat)) (k : Nat)
    (msg : List Nat) (h : explorir_handler_t) :
    SessionResult × Nat × List (List Nat) :=
  match explorir_process_response fuel (applyDelivery env k h) with
  | .done h2 => (.completed h2.err_code h2, k + 1, [msg])
  | .oob h2 => (.overrun h2, k + 1, [msg])
  | .fuelOut => (.noFuel, k + 1, [msg])

/-! ## Session operations (one per C function used by the claims) -/

/-- The "Z\r\n" request. -/
def explorir_request_filtered_co2 (fuel : Nat) (env : Nat → Option (List Nat))
    (k : Nat) (h : explorir_handler_t) : SessionResult × Nat × List (List Nat) :=
  txAndProcess fuel env k [90, 13, 10] h

/-- The "z\r\n" request. -/
def explorir_request_unfiltered_co2 (fuel : Nat) (env : Nat → Option (List Nat))
    (k : Nat) (h : explorir_handler_t) : SessionResult × Nat × List (List Nat) :=
  txAndProcess fuel env k [122, 13, 10] h

/-- The ".\r\n" request. -/
def explorir_request_scaling_factor (fuel : Nat) (env : Nat → Option (List Nat))
    (k : Nat) (h : explorir_handler_t) : SessionResult × Nat × List (List Nat) :=
  txAndProcess fuel env k [46, 13, 10] h

/-- The "K x\r\n" frame with x one of '0' '1' '2'; any other mode is rejected with
EXPLORIR_ERR_INVALID_MODE before anything is transmitted. -/
def explorir_set_operation_mode (fuel : Nat) (env : Nat → Option (List Nat))
    (k : Nat) (mode : Int) (h : explorir_handler_t) :
    SessionResult × Nat × List (List Nat) :=
  if mode = EXPLORIR_MODE_STREAMING then txAndProcess fuel env k [75, 32, 49, 13, 10] h
  else if mode = EXPLORIR_MODE_POLLING then txAndProcess fuel env k [75, 32, 50, 13, 10] h
  else if mode = EXPLORIR_MODE_COMMAND then txAndProcess fuel env k [75, 32, 48, 13, 10] h
  else (.rejected .EXPLORIR_ERR_INVALID_MODE h, k, [])

/-- The "A <decimal>\r\n" frame; filter is a uint16_t (the `< MIN_DIGITAL_FILTER`
half of the C range check is vacuous for an unsigned argument). -/
def explorir_set_digital_filter (fuel : Nat) (env : Nat → Option (List Nat))
    (k : Nat) (filter : Nat) (h : explorir_handler_t) :
    SessionResult × Nat × List (List Nat) :=
  if MAX_DIGITAL_FILTER < filter then (.rejected .EXPLORIR_ERR_INVALID_INPUT h, k, [])
  else txAndProcess fuel env k ([65, 32] ++ decDigits filter ++ [13, 10]) h

/-- The "a\r\n" request. -/
def explorir_request_digital_filter (fuel : Nat) (env : Nat → Option (List Nat))
    (k : Nat) (h : explorir_handler_t) : SessionResult × Nat × List (List Nat) :=
  txAndProcess fuel env k [97, 13, 10] h

/-- The "@ d.0 d.0\r\n" template, but the C call is
`explorir_tx(msg, 10)` on the 11-byte string — only the first ten bytes
(up to and including '\r', without the '\n') are transmitted; `take 10`
models that size argument. -/
def explorir_set_auto_zero_intervals (fuel : Nat) (env : Nat → Option (List Nat))
    (k : Nat) (initial regular : Nat) (h : explorir_handler_t) :
    SessionResult × Nat × List (List Nat) :=
  if 9 < initial ∨ 9 < regular then (.rejected .EXPLORIR_ERR_INVALID_INPUT h, k, [])
  else
    txAndProcess fuel env k
      (([64, 32, 48 + initial, 46, 48, 32, 48 + regular, 46, 48, 13, 10]).take 10) h

/-- The "s\r\n" request. -/
def explorir_request_pressure_and_concetration_compensation (fuel : Nat)
    (env : Nat → Option (List Nat)) (k : Nat) (h : explorir_handler_t) :
    SessionResult × Nat × List (List Nat) :=
  txAndProcess fuel env k [115, 13, 10] h

/-- The "M 00006\r\n" frame. -/
def explorir_set_output_data_all (fuel : Nat) (env : Nat → Option (List Nat))
    (k : Nat) (h : explorir_handler_t) : SessionResult × Nat × List (List Nat) :=
  txAndProcess fuel env k [77, 32, 48, 48, 48, 48, 54, 13, 10] h

/-- The "Y\r\n" request, then two parses (firmware line, serial line). -/
def explorir_request_sensor_info (fuel : Nat) (env : Nat → Option (List Nat))
    (k : Nat) (h : explorir_handler_t) : SessionResult × Nat × List (List Nat) :=
  match explorir_process_response fuel (applyDelivery env k h) with
  | .done h2 =>
    match explorir_process_response fuel (applyDelivery env (k + 1) h2) with
    | .done h4 => (.completed h4.err_code h4, k + 2, [[89, 13, 10]])
    | .oob h4 => (.overrun h4, k + 2, [[89, 13, 10]])
    | .fuelOut => (.noFuel, k + 2, [[89, 13, 10]])
  | .oob h2 => (.overrun h2, k + 1, [[89, 13, 10]])
  | .fuelOut => (.noFuel, k + 1, [[89, 13, 10]])

/-! ## Initialization sequence (explorir_init) -/

/-- The assignment `explorir_handler->err_code = <step>(...)`: the returned code is
stored into the handler and the sequence continues unconditionally; the
model only stops (`none`) when a parse hits undefined behaviour
(`overrun`) or the fuel runs out. -/
def initStep : SessionResult → Option explorir_handler_t
  | .rejected c h => some { h with err_code := c }
  | .completed c h => some { h with err_code := c }
  | .overrun _ => none
  | .noFuel => none

/-- One `explorir_handler->err_code = <step>(...)` sequencing level of
`explorir_init`: store the step's returned code, continue with the rest
of the sequence, and prepend the step's transmissions to the trace. -/
def initChain (s : SessionResult × Nat × List (List Nat))
    (rest : explorir_handler_t → Nat → Option explorir_handler_t × List (List Nat)) :
    Option explorir_handler_t × List (List Nat) :=
  match initStep s.1 with
  | none => (none, s.2.2)
  | some h1 =>
    let r := rest h1 s.2.1
    (r.1, s.2.2 ++ r.2)

/-- The `explorir_init` sequence: command mode, sensor info (two
replies), scaling factor, digital filter 16, compensation, combined
output, default mode; each step's return value is written to err_code
and the sequence never aborts on a step's failure code; afterwards the
mode and the cached readings and filter are reset. -/
def explorir_init (fuel : Nat) (env : Nat → Option (List Nat))
    (h : explorir_handler_t) : Option explorir_handler_t × List (List Nat) :=
  initChain (explorir_set_operation_mode fuel env 0 EXPLORIR_MODE_COMMAND h) fun h1 k1 =>
  initChain (explorir_request_sensor_info fuel env k1 h1) fun h2 k2 =>
  initChain (explorir_request_scaling_factor fuel env k2 h2) fun h3 k3 =>
  initChain (explorir_set_digital_filter fuel env k3 DIGITAL_FILTER_DEFAULT h3) fun h4 k4 =>
  initChain (explorir_request_pressure_and_concetration_compensation fuel env k4 h4) fun h5 k5 =>
  initChain (explorir_set_output_data_all fuel env k5 h5) fun h6 k6 =>
  initChain (explorir_set_operation_mode fuel env k6 EXPLORIR_MODE_DEFAULT h6) fun h7 _ =>
  (some { h7 with
    current_mode := EXPLORIR_MODE_DEFAULT
    current_filtered_co2 := 0
    current_unfiltered_co2 := 0
    digital_filter := DIGITAL_FILTER_DEFAULT }, [])

/-! ## The busy wait (explorir_wait_for_response)

The volatile flag `explorir_complete_uart_rx` is modelled as the
function `flag : Nat → Bool` giving its value at each read (the loop
reads it once per iteration, at `timer = 0, 1, ...`).  The function
returns the updated handler and the flag value after the unconditional
`explorir_complete_uart_rx = false` reset.  Structural fuel
`RESPONSE_TIMEOUT + 1` is exact: the loop checks the flag at
`timer = 0 .. RESPONSE_TIMEOUT` and forcibly stops at the bound. -/

def explorir_wait_loop (flag : Nat → Bool) : Nat → Nat → explorir_handler_t →
    explorir_handler_t
  | 0, _, h => h
  | fuel + 1, timer, h =>
    if flag timer then h
    else if RESPONSE_TIMEOUT ≤ timer then { h with err_code := .EXPLORIR_ERR_TIMEOUT }
    else explorir_wait_loop flag fuel (timer + 1) h

def explorir_wait_for_response (flag : Nat → Bool) (h : explorir_handler_t) :
    explorir_handler_t × Bool :=
  (explorir_wait_loop flag (RESPONSE_TIMEOUT + 1) 0 h, false)

/-! ## Scanner lemmas -/

theorem readByte_some_lt {buf : List Nat} {i b : Nat}
    (h : readByte buf i = some b) : i < buf.length := by
  induction buf generalizing i with
  | nil => simp [readByte] at h
  | cons a rest ih =>
    cases i with
    | zero => simp
    | succ n =>
      simp only [readByte] at h
      simpa using ih h

theorem readByte_isSome {buf : List Nat} {i : Nat} (h : i < buf.length) :
    ∃ b, readByte buf i = some b := by
  induction buf generalizing i with
  | nil => simp at h
  | cons a rest ih =>
    cases i with
    | zero => exact ⟨a, rfl⟩
    | succ n => exact ih (by simpa using h)

theorem readByte_append_right {l1 l2 : List Nat} {n : Nat}
    (h : l1.length ≤ n) : readByte (l1 ++ l2) n = readByte l2 (n - l1.length) := by
  induction l1 generalizing n with
  | nil => simp
  | cons a rest ih =>
    cases n with
    | zero => simp at h
    | succ m =>
      rw [List.cons_append]
      show readByte (rest ++ l2) m = readByte l2 (m + 1 - (a :: rest).length)
      rw [ih (by simpa using h)]
      congr 1
      simp only [List.length_cons]
      omega

theorem readByte_replicate {k m c : Nat} (h : m < k) :
    readByte (List.replicate k c) m = some c := by
  induction k generalizing m with
  | zero => omega
  | succ n ih =>
    cases m with
    | zero => simp [List.replicate, readByte]
    | succ j =>
      rw [List.replicate_succ]
      simp only [readByte]
      exact ih (by omega)

theorem skipZeros_stop {buf : List Nat} {i b : Nat}
    (h : readByte buf i = some b) (hb : b ≠ 48) : skipZeros buf i = some i := by
  have hlt : i < buf.length := readByte_some_lt h
  unfold skipZeros
  have : buf.length + 1 - i = (buf.length - i) + 1 := by omega
  rw [this]
  simp [skipZerosAux, h, hb]

theorem skipZeros_step {buf : List Nat} {i : Nat}
    (h : readByte buf i = some 48) : skipZeros buf i = skipZeros buf (i + 1) := by
  have hlt : i < buf.length := readByte_some_lt h
  unfold skipZeros
  have : buf.length + 1 - i = (buf.length - i) + 1 := by omega
  rw [this]
  simp only [skipZerosAux, h, if_true]
  congr 1
  omega

/-- A byte that is neither the terminator nor a recognized tag makes
the loop body advance the cursor by one (the SPACE and default cases). -/
theorem loopBody_skip {buf : List Nat} {i b : Nat} (st : explorir_handler_t)
    (h : readByte buf i = some b) (hb : b ≠ 10) (ht : isTagByte b = false) :
    loopBody buf i st = .next (i + 1) st := by
  simp only [isTagByte, Bool.or_eq_false_iff, beq_eq_false_iff_ne] at ht
  obtain ⟨⟨⟨⟨⟨⟨⟨⟨⟨⟨⟨⟨h46, h90⟩, h122⟩, h75⟩, h65⟩, h97⟩, h70⟩, h71⟩, h85⟩, h117⟩, h88⟩, h83⟩, h115⟩ := ht
  simp [loopBody, h, hb, h46, h90, h122, h75, h65, h97, h70, h71, h85, h117, h88, h83, h115]

/-- Scanning a region of non-terminator non-tag bytes that ends at a
line feed at index `k` terminates: the loop walks byte by byte to `k`,
exits, and clears the buffer, leaving every other handler field
untouched.  Needs `k - i < fuel`. -/
theorem scanLoop_skip_region {buf : List Nat} {k : Nat}
    (hk : readByte buf k = some 10)
    (hpre : ∀ j, j < k → (readByte buf j).all (fun b => decide (b ≠ 10) && !isTagByte b) = true) :
    ∀ fuel i st, i ≤ k → k - i < fuel → scanLoop buf fuel i st = .done (clearBuffer st) := by
  intro fuel
  induction fuel with
  | zero => intro i st _ h2; omega
  | succ f ih =>
    intro i st hik hfuel
    by_cases hi : i = k
    · subst hi
      simp [scanLoop, loopBody, hk]
    · have hjk : i < k := by omega
      have hb := hpre i hjk
      cases hr : readByte buf i with
      | none =>
        have hklen := readByte_some_lt hk
        obtain ⟨b, hb2⟩ := readByte_isSome (show i < buf.length by omega)
        rw [hr] at hb2
        exact absurd hb2 (by simp)
      | some b =>
        rw [hr] at hb
        simp only [Option.all, Bool.and_eq_true, decide_eq_true_eq,
          Bool.not_eq_true'] at hb
        rw [scanLoop, loopBody_skip st hr hb.1 hb.2]
        exact ih (i + 1) st (by omega) (by omega)

/-- Scanning a region of zero bytes (from some lower bound `m` on) that
runs to the end of a 128-byte buffer reads out of bounds at index 128,
with the handler unchanged. -/
theorem scanLoop_zero_tail {buf : List Nat} {m : Nat} (hlen : buf.length = 128)
    (hz : ∀ j, m ≤ j → j < 128 → readByte buf j = some 0) :
    ∀ fuel i st, m ≤ i → i ≤ 128 → 128 - i < fuel → scanLoop buf fuel i st = .oob st := by
  intro fuel
  induction fuel with
  | zero => intro i st _ _ h3; omega
  | succ f ih =>
    intro i st h9 hle hfuel
    by_cases hi : i = 128
    · subst hi
      have : readByte buf 128 = none := by
        cases hr : readByte buf 128 with
        | none => rfl
        | some b => have := readByte_some_lt hr; omega
      simp [scanLoop, loopBody, this]
    · have hlt : i < 128 := by omega
      rw [scanLoop, loopBody_skip st (hz i h9 hlt) (by omega) (by decide)]
      exact ih (i + 1) st (by omega) (by omega) (by omega)

/-- Whenever the scan reaches `EndWhile`, the resulting handler has a
zero-filled receive buffer (the `memset`). -/
theorem scanLoop_done_cleared {buf : List Nat} :
    ∀ fuel i st h2, scanLoop buf fuel i st = .done h2 →
      h2.explorir_data = List.replicate 128 0 := by
  intro fuel
  induction fuel with
  | zero => intro i st h2 h; simp [scanLoop] at h
  | succ f ih =>
    intro i st h2 h
    rw [scanLoop] at h
    cases hl : loopBody buf i st with
    | exit st2 =>
      rw [hl] at h
      simp only [ScanOutcome.done.injEq] at h
      rw [← h]
      rfl
    | oobRead st2 => rw [hl] at h; simp at h
    | next i2 st2 =>
      rw [hl] at h
      exact ih i2 st2 h2 h

/-! ## Decimal-digit lemmas -/

theorem decDigitsAux_fuel : ∀ f1 f2 n, n < f1 → n < f2 →
    decDigitsAux f1 n = decDigitsAux f2 n := by
  intro f1
  induction f1 with
  | zero => intro f2 n h1; omega
  | succ a ih =>
    intro f2 n h1 h2
    cases f2 with
    | zero => omega
    | succ b =>
      by_cases hn : n < 10
      · simp [decDigitsAux, hn]
      · simp only [decDigitsAux, hn, if_false]
        rw [ih b (n / 10) (by omega) (by omega)]

theorem decDigits_lt10 {n : Nat} (h : n < 10) : decDigits n = [48 + n] := by
  simp [decDigits, decDigitsAux, h]

theorem decDigits_step {n : Nat} (h : 10 ≤ n) :
    decDigits n = decDigits (n / 10) ++ [48 + n % 10] := by
  unfold decDigits
  rw [show decDigitsAux (n + 1) n
      = if n < 10 then [48 + n] else decDigitsAux n (n / 10) ++ [48 + n % 10] from rfl]
  rw [if_neg (by omega)]
  exact congrArg (fun l => l ++ [48 + n % 10])
    (decDigitsAux_fuel n (n / 10 + 1) (n / 10) (by omega) (by omega))

theorem decDigits_all_digits : ∀ n, ∀ c ∈ decDigits n, 48 ≤ c ∧ c ≤ 57 := by
  intro n
  induction n using Nat.strong_induction_on with
  | _ n ih =>
    by_cases hn : n < 10
    · rw [decDigits_lt10 hn]
      intro c hc
      simp at hc
      omega
    · rw [decDigits_step (by omega)]
      intro c hc
      rw [List.mem_append] at hc
      rcases hc with hc | hc
      · exact ih (n / 10) (by omega) c hc
      · simp at hc; omega

theorem digitsVal_append {l1 l2 : List Nat} (h : ∀ c ∈ l1, 48 ≤ c ∧ c ≤ 57) :
    ∀ acc, digitsVal (l1 ++ l2) acc = digitsVal l2 (digitsVal l1 acc) := by
  induction l1 with
  | nil => intro acc; rfl
  | cons c cs ih =>
    intro acc
    have hc := h c (by simp)
    rw [List.cons_append]
    simp only [digitsVal, hc, and_true, if_pos hc]
    exact ih (fun d hd => h d (by simp [hd])) _

theorem digitsVal_decDigits : ∀ n acc,
    digitsVal (decDigits n) acc = acc * 10 ^ (decDigits n).length + n := by
  intro n
  induction n using Nat.strong_induction_on with
  | _ n ih =>
    intro acc
    by_cases hn : n < 10
    · rw [decDigits_lt10 hn]
      simp only [digitsVal, List.length_singleton]
      rw [if_pos (by omega)]
      simp only [digitsVal, pow_one]
      omega
    · rw [decDigits_step (by omega)]
      rw [digitsVal_append (decDigits_all_digits (n / 10)) acc]
      rw [ih (n / 10) (by omega) acc]
      simp only [digitsVal]
      rw [if_pos (by omega)]
      simp only [digitsVal, List.length_append, List.length_singleton]
      rw [pow_succ]
      have : 48 + n % 10 - 48 = n % 10 := by omega
      rw [this]
      ring_nf
      omega

theorem decDigits_ne_nil (n : Nat) : decDigits n ≠ [] := by
  by_cases hn : n < 10
  · rw [decDigits_lt10 hn]; simp
  · rw [decDigits_step (by omega)]; simp

theorem decDigits_head_ne_zero : ∀ n, 1 ≤ n → ∀ c, (decDigits n).head? = some c → c ≠ 48 := by
  intro n
  induction n using Nat.strong_induction_on with
  | _ n ih =>
    intro h1 c hc
    by_cases hn : n < 10
    · rw [decDigits_lt10 hn] at hc
      simp at hc
      omega
    · rw [decDigits_step (by omega)] at hc
      obtain ⟨a, t, ha⟩ := List.exists_cons_of_ne_nil (decDigits_ne_nil (n / 10))
      rw [ha] at hc
      simp only [List.cons_append, List.head?_cons, Option.some.injEq] at hc
      have : (decDigits (n / 10)).head? = some a := by rw [ha]; rfl
      exact hc ▸ ih (n / 10) (by omega) (by omega) a this

/-! ## Reply-buffer construction for the CO2 field claims

`pad5 v` is the 5-character zero-padded decimal field of the sensor
protocol; `mkZBuf v` is the receive buffer holding exactly the reply
"Z " ++ pad5 v ++ "\r\n" with the rest of the 128 bytes zero. -/

def pad5 (v : Nat) : List Nat :=
  List.replicate (5 - (decDigits v).length) 48 ++ decDigits v

def mkZBuf (v : Nat) : List Nat :=
  ([90, 32] ++ pad5 v ++ [13, 10]) ++ List.replicate 119 0

theorem decDigits_length_pow : ∀ k v, v < 10 ^ (k + 1) → (decDigits v).length ≤ k + 1 := by
  intro k
  induction k with
  | zero =>
    intro v hv
    rw [decDigits_lt10 (by simpa using hv)]
    simp
  | succ j ih =>
    intro v hv
    by_cases h10 : v < 10
    · rw [decDigits_lt10 h10]
      simp only [List.length_singleton]
      omega
    · rw [decDigits_step (by omega)]
      have : v / 10 < 10 ^ (j + 1) := by
        rw [pow_succ] at hv
        omega
      have := ih (v / 10) this
      simp only [List.length_append, List.length_singleton]
      omega

theorem pad5_length {v : Nat} (h : v ≤ 99999) : (pad5 v).length = 5 := by
  have h5 : (decDigits v).length ≤ 5 := decDigits_length_pow 4 v (by omega)
  simp only [pad5, List.length_append, List.length_replicate]
  omega

theorem atoi_digit_head {c : Nat} (rest : List Nat) (h1 : 48 ≤ c) (h2 : c ≤ 57) :
    atoi (c :: rest) = (digitsVal (c :: rest) 0 : Int) := by
  have hs : isSpaceChar c = false := by
    simp only [isSpaceChar, Bool.or_eq_false_iff, beq_eq_false_iff_ne,
      Bool.and_eq_false_iff, decide_eq_false_iff_not]
    omega
  simp only [atoi, List.dropWhile_cons, hs, Bool.false_eq_true, if_false]
  rw [if_neg (by omega), if_neg (by omega)]

/-- Parsing the 5-character zero-padded field of a "Z "-tagged reply:
the leading-zero skip plus 5-byte copy plus atoi recover exactly the
encoded raw value, for every raw value up to 99999. -/
theorem parse_pad5 {v : Nat} (h : v ≤ 99999) :
    parseField (mkZBuf v) 2 = some (v : Int) := by
  rcases Nat.lt_or_ge v 1 with h0 | h0
  · have hv : v = 0 := by omega
    subst hv
    decide
  rcases Nat.lt_or_ge v 10 with h1 | h1
  · have hd : decDigits v = [48 + v] := decDigits_lt10 h1
    have hbuf : mkZBuf v
        = 90 :: 32 :: 48 :: 48 :: 48 :: 48 :: (48 + v) :: 13 :: 10 :: List.replicate 119 0 := by
      simp only [mkZBuf, pad5, hd]
      rfl
    have e2 : readByte (mkZBuf v) 2 = some 48 := by rw [hbuf]; rfl
    have e3 : readByte (mkZBuf v) 3 = some 48 := by rw [hbuf]; rfl
    have e4 : readByte (mkZBuf v) 4 = some 48 := by rw [hbuf]; rfl
    have e5 : readByte (mkZBuf v) 5 = some 48 := by rw [hbuf]; rfl
    have e6 : readByte (mkZBuf v) 6 = some (48 + v) := by rw [hbuf]; rfl
    have hs : skipZeros (mkZBuf v) 2 = some 6 := by
      rw [skipZeros_step e2, skipZeros_step e3, skipZeros_step e4, skipZeros_step e5,
        skipZeros_stop e6 (by omega)]
    have hr : read5 (mkZBuf v) 6 = some [48 + v, 13, 10, 0, 0] := by
      rw [hbuf]; rfl
    have ha : atoi [48 + v, 13, 10, 0, 0] = (v : Int) := by
      rw [atoi_digit_head _ (by omega) (by omega)]
      simp only [digitsVal]
      rw [if_pos (by omega), if_neg (by omega)]
      have hval : 0 * 10 + (48 + v - 48) = v := by omega
      rw [hval]
    unfold parseField
    rw [hs, Option.some_bind, hr]
    simp only [Option.map_some']
    rw [ha]
  rcases Nat.lt_or_ge v 100 with h2 | h2
  · have hd : decDigits v = [48 + v / 10, 48 + v % 10] := by
      rw [decDigits_step (by omega), decDigits_lt10 (by omega)]
      rfl
    have hbuf : mkZBuf v
        = 90 :: 32 :: 48 :: 48 :: 48 :: (48 + v / 10) :: (48 + v % 10)
          :: 13 :: 10 :: List.replicate 119 0 := by
      simp only [mkZBuf, pad5, hd]
      rfl
    have e2 : readByte (mkZBuf v) 2 = some 48 := by rw [hbuf]; rfl
    have e3 : readByte (mkZBuf v) 3 = some 48 := by rw [hbuf]; rfl
    have e4 : readByte (mkZBuf v) 4 = some 48 := by rw [hbuf]; rfl
    have e5 : readByte (mkZBuf v) 5 = some (48 + v / 10) := by rw [hbuf]; rfl
    have hs : skipZeros (mkZBuf v) 2 = some 5 := by
      rw [skipZeros_step e2, skipZeros_step e3, skipZeros_step e4,
        skipZeros_stop e5 (by omega)]
    have hr : read5 (mkZBuf v) 5 = some [48 + v / 10, 48 + v % 10, 13, 10, 0] := by
      rw [hbuf]; rfl
    have ha : atoi [48 + v / 10, 48 + v % 10, 13, 10, 0] = (v : Int) := by
      rw [atoi_digit_head _ (by omega) (by omega)]
      simp only [digitsVal]
      rw [if_pos (by omega), if_pos (by omega), if_neg (by omega)]
      have hval : (0 * 10 + (48 + v / 10 - 48)) * 10 + (48 + v % 10 - 48) = v := by omega
      rw [hval]
    unfold parseField
    rw [hs, Option.some_bind, hr]
    simp only [Option.map_some']
    rw [ha]
  rcases Nat.lt_or_ge v 1000 with h3 | h3
  · have hd : decDigits v = [48 + v / 10 / 10, 48 + v / 10 % 10, 48 + v % 10] := by
      rw [decDigits_step (by omega), decDigits_step (by omega), decDigits_lt10 (by omega)]
      rfl
    have hbuf : mkZBuf v
        = 90 :: 32 :: 48 :: 48 :: (48 + v / 10 / 10) :: (48 + v / 10 % 10)
          :: (48 + v % 10) :: 13 :: 10 :: List.replicate 119 0 := by
      simp only [mkZBuf, pad5, hd]
      rfl
    have e2 : readByte (mkZBuf v) 2 = some 48 := by rw [hbuf]; rfl
    have e3 : readByte (mkZBuf v) 3 = some 48 := by rw [hbuf]; rfl
    have e4 : readByte (mkZBuf v) 4 = some (48 + v / 10 / 10) := by rw [hbuf]; rfl
    have hs : skipZeros (mkZBuf v) 2 = some 4 := by
      rw [skipZeros_step e2, skipZeros_step e3, skipZeros_stop e4 (by omega)]
    have hr : read5 (mkZBuf v) 4
        = some [48 + v / 10 / 10, 48 + v / 10 % 10, 48 + v % 10, 13, 10] := by
      rw [hbuf]; rfl
    have ha : atoi [48 + v / 10 / 10, 48 + v / 10 % 10, 48 + v % 10, 13, 10] = (v : Int) := by
      rw [atoi_digit_head _ (by omega) (by omega)]
      simp only [digitsVal]
      rw [if_pos (by omega), if_pos (by omega), if_pos (by omega), if_neg (by omega)]
      have hval : ((0 * 10 + (48 + v / 10 / 10 - 48)) * 10 + (48 + v / 10 % 10 - 48)) * 10
          + (48 + v % 10 - 48) = v := by omega
      rw [hval]
    unfold parseField
    rw [hs, Option.some_bind, hr]
    simp only [Option.map_some']
    rw [ha]
  rcases Nat.lt_or_ge v 10000 with h4 | h4
  · have hd : decDigits v
        = [48 + v / 10 / 10 / 10, 48 + v / 10 / 10 % 10, 48 + v / 10 % 10, 48 + v % 10] := by
      rw [decDigits_step (by omega), decDigits_step (by omega), decDigits_step (by omega),
        decDigits_lt10 (by omega)]
      rfl
    have hbuf : mkZBuf v
        = 90 :: 32 :: 48 :: (48 + v / 10 / 10 / 10) :: (48 + v / 10 / 10 % 10)
          :: (48 + v / 10 % 10) :: (48 + v % 10) :: 13 :: 10 :: List.replicate 119 0 := by
      simp only [mkZBuf, pad5, hd]
      rfl
    have e2 : readByte (mkZBuf v) 2 = some 48 := by rw [hbuf]; rfl
    have e3 : readByte (mkZBuf v) 3 = some (48 + v / 10 / 10 / 10) := by rw [hbuf]; rfl
    have hs : skipZeros (mkZBuf v) 2 = some 3 := by
      rw [skipZeros_step e2, skipZeros_stop e3 (by omega)]
    have hr : read5 (mkZBuf v) 3
        = some [48 + v / 10 / 10 / 10, 48 + v / 10 / 10 % 10, 48 + v / 10 % 10,
            48 + v % 10, 13] := by
      rw [hbuf]; rfl
    have ha : atoi [48 + v / 10 / 10 / 10, 48 + v / 10 / 10 % 10, 48 + v / 10 % 10,
        48 + v % 10, 13] = (v : Int) := by
      rw [atoi_digit_head _ (by omega) (by omega)]
      simp only [digitsVal]
      rw [if_pos (by omega), if_pos (by omega), if_pos (by omega), if_pos (by omega),
        if_neg (by omega)]
      have hval : (((0 * 10 + (48 + v / 10 / 10 / 10 - 48)) * 10
          + (48 + v / 10 / 10 % 10 - 48)) * 10
          + (48 + v / 10 % 10 - 48)) * 10 + (48 + v % 10 - 48) = v := by omega
      rw [hval]
    unfold parseField
    rw [hs, Option.some_bind, hr]
    simp only [Option.map_some']
    rw [ha]
  · have hd : decDigits v
        = [48 + v / 10 / 10 / 10 / 10, 48 + v / 10 / 10 / 10 % 10, 48 + v / 10 / 10 % 10,
            48 + v / 10 % 10, 48 + v % 10] := by
      rw [decDigits_step (by omega), decDigits_step (by omega), decDigits_step (by omega),
        decDigits_step (by omega), decDigits_lt10 (by omega)]
      rfl
    have hbuf : mkZBuf v
        = 90 :: 32 :: (48 + v / 10 / 10 / 10 / 10) :: (48 + v / 10 / 10 / 10 % 10)
          :: (48 + v / 10 / 10 % 10) :: (48 + v / 10 % 10) :: (48 + v % 10)
          :: 13 :: 10 :: List.replicate 119 0 := by
      simp only [mkZBuf, pad5, hd]
      rfl
    have e2 : readByte (mkZBuf v) 2 = some (48 + v / 10 / 10 / 10 / 10) := by rw [hbuf]; rfl
    have hs : skipZeros (mkZBuf v) 2 = some 2 := by
      rw [skipZeros_stop e2 (by omega)]
    have hr : read5 (mkZBuf v) 2
        = some [48 + v / 10 / 10 / 10 / 10, 48 + v / 10 / 10 / 10 % 10, 48 + v / 10 / 10 % 10,
            48 + v / 10 % 10, 48 + v % 10] := by
      rw [hbuf]; rfl
    have ha : atoi [48 + v / 10 / 10 / 10 / 10, 48 + v / 10 / 10 / 10 % 10,
        48 + v / 10 / 10 % 10, 48 + v / 10 % 10, 48 + v % 10] = (v : Int) := by
      rw [atoi_digit_head _ (by omega) (by omega)]
      simp only [digitsVal]
      rw [if_pos (by omega), if_pos (by omega), if_pos (by omega), if_pos (by omega),
        if_pos (by omega)]
      have hval : ((((0 * 10 + (48 + v / 10 / 10 / 10 / 10 - 48)) * 10
          + (48 + v / 10 / 10 / 10 % 10 - 48)) * 10 + (48 + v / 10 / 10 % 10 - 48)) * 10
          + (48 + v / 10 % 10 - 48)) * 10 + (48 + v % 10 - 48) = v := by omega
      rw [hval]
    unfold parseField
    rw [hs, Option.some_bind, hr]
    simp only [Option.map_some']
    rw [ha]

theorem mkZBuf_length {v : Nat} (h : v ≤ 99999) : (mkZBuf v).length = 128 := by
  simp only [mkZBuf, List.length_append, List.length_replicate, pad5_length h,
    List.length_cons, List.length_nil]

theorem mkZBuf_tail_zero {v : Nat} (h : v ≤ 99999) :
    ∀ j, 9 ≤ j → j < 128 → readByte (mkZBuf v) j = some 0 := by
  intro j h9 h128
  unfold mkZBuf
  have hlen : ([90, 32] ++ pad5 v ++ [13, 10]).length = 9 := by
    simp only [List.length_append, pad5_length h, List.length_cons, List.length_nil]
  rw [readByte_append_right (by omega)]
  rw [readByte_replicate (by omega)]

/-- Claim C3, amended.  With a cached scaling factor `s` and the reply
buffer "Z " ++ zero_pad5(v) ++ "\r\n" (rest of the 128 bytes zero), the
scanner stores `v * s` into `current_filtered_co2` (leading zeros
stripped, all-zero field giving 0, product taken modulo 2^32 — here
constrained below 2^32 so it is exactly `v * s`), but it does NOT
terminate cleanly: the `i = 9` cursor jump lands one byte past the
terminator (which sits at offset 8), so the loop walks the zero-filled
tail and finally attempts to read offset 128, one past the buffer; the
outcome is the out-of-bounds event with the stored value intact and the
buffer not cleared. -/
theorem C3_filtered_store (st : explorir_handler_t) (v fuel : Nat)
    (hv : v ≤ 99999) (hbuf : st.explorir_data = mkZBuf v)
    (hmul : v * st.scaling_factor < 4294967296) (hfuel : 120 < fuel) :
    explorir_process_response fuel st
      = .oob { st with current_filtered_co2 := v * st.scaling_factor } := by
  have h90 : readByte (mkZBuf v) 0 = some 90 := rfl
  have hcast : (((v : Int) * (st.scaling_factor : Int)) % 4294967296).toNat
      = v * st.scaling_factor := by
    have h1 : (v : Int) * (st.scaling_factor : Int) = ((v * st.scaling_factor : Nat) : Int) := by
      push_cast
      ring
    rw [h1]
    omega
  have hlb : loopBody (mkZBuf v) 0 st
      = .next 9 { st with current_filtered_co2 :=
          (((v : Int) * (st.scaling_factor : Int)) % 4294967296).toNat } := by
    simp [loopBody, h90, parse_pad5 hv]
  unfold explorir_process_response
  conv_lhs => rw [hbuf]
  cases fuel with
  | zero => omega
  | succ f =>
    rw [scanLoop, hlb]
    have hz := scanLoop_zero_tail (mkZBuf_length hv) (mkZBuf_tail_zero hv) f 9
      { st with current_filtered_co2 :=
          (((v : Int) * (st.scaling_factor : Int)) % 4294967296).toNat }
      (by omega) (by omega) (by omega)
    exact hz.trans
      (congrArg (fun x => ScanOutcome.oob { st with current_filtered_co2 := x }) hcast)

/-! ## Concrete handlers for the example-based theorems -/

/-- A freshly constructed handler: zero-filled buffer and fields. -/
def zeroHandler : explorir_handler_t :=
  { explorir_data := List.replicate 128 0
    err_code := .EXPLORIR_SUCCESS
    scaling_factor := 0
    current_filtered_co2 := 0
    current_unfiltered_co2 := 0
    digital_filter := 16
    zero_point := 0
    pressure_and_concentration_compensation := 0
    current_mode := 0 }

/-- Handler holding the spec's combined-reply example
"Z 00100z 00050\r\n", scaling factor 1. -/
def C1exH : explorir_handler_t :=
  { zeroHandler with
    explorir_data :=
      [90, 32, 48, 48, 49, 48, 48, 122, 32, 48, 48, 48, 53, 48, 13, 10]
        ++ List.replicate 112 0
    scaling_factor := 1 }

def C1exDone : explorir_handler_t := clearBuffer { C1exH with current_filtered_co2 := 100 }

/-- Claim C1, counterexample to the claim as stated: on the buffer
"Z 00100z 00050\r\n" with scaling factor 1, the scanner updates only
the filtered reading; the unfiltered tag 'z' at offset 7 is jumped over
by the `i = 9` cursor assignment, so `current_unfiltered_co2` stays 0
instead of becoming 50. -/
theorem C1_counterexample :
    explorir_process_response 200 C1exH = .done C1exDone
    ∧ C1exDone.current_filtered_co2 = 100
    ∧ C1exDone.current_unfiltered_co2 = 0
    ∧ C1exDone.current_unfiltered_co2 ≠ 50 := by decide

/-- Claim C1, amended.  Only the filtered-CO2 tag 'Z' stores its value
and then continues the outer loop with the cursor set to the fixed
offset 9; the unfiltered-CO2 tag 'z' — like every other recognized tag
(scaling '.', mode 'K', digital filter 'A'/'a', zero point
'F'/'G'/'U'/'u'/'X', compensation 'S'/'s') — terminates scanning
immediately after storing its value.  Consequently the example buffer
"Z 00100z 00050\r\n" with scaling factor 1 yields
current_filtered_co2 = 100 but leaves current_unfiltered_co2 at 0, not
50 (the 'z' field at offset 7 lies before the continuation offset 9 and
is never visited). -/
theorem C1_continuation_policy (buf : List Nat) (i : Nat)
    (st : explorir_handler_t) (v : Int) :
    (readByte buf i = some 90 → parseField buf (i + 2) = some v →
      loopBody buf i st = .next 9 { st with current_filtered_co2 :=
        ((v * (st.scaling_factor : Int)) % 4294967296).toNat })
    ∧ (readByte buf i = some 122 → parseField buf (i + 2) = some v →
      loopBody buf i st = .exit { st with current_unfiltered_co2 :=
        ((v * (st.scaling_factor : Int)) % 4294967296).toNat })
    ∧ (readByte buf i = some 46 → parseField buf (i + 2) = some v →
      loopBody buf i st = .exit { st with scaling_factor := (v % 65536).toNat })
    ∧ (readByte buf i = some 75 → parseField buf (i + 2) = some v →
      loopBody buf i st = .exit { st with current_mode := v })
    ∧ (∀ b, (b = 65 ∨ b = 97) → readByte buf i = some b → parseField buf (i + 2) = some v →
      loopBody buf i st = .exit { st with digital_filter := (v % 4294967296).toNat })
    ∧ (∀ b, (b = 70 ∨ b = 71 ∨ b = 85 ∨ b = 117 ∨ b = 88) →
      readByte buf i = some b → parseField buf (i + 2) = some v →
      loopBody buf i st = .exit { st with zero_point := (v % 4294967296).toNat })
    ∧ (∀ b, (b = 83 ∨ b = 115) → readByte buf i = some b → parseField buf (i + 2) = some v →
      loopBody buf i st = .exit { st with pressure_and_concentration_compensation :=
        (v % 4294967296).toNat })
    ∧ explorir_process_response 200 C1exH = .done C1exDone
    ∧ C1exDone.current_filtered_co2 = 100
    ∧ C1exDone.current_unfiltered_co2 = 0 := by
  refine ⟨?_, ?_, ?_, ?_, ?_, ?_, ?_, by decide, by decide, by decide⟩
  · intro h1 h2
    simp [loopBody, h1, h2]
  · intro h1 h2
    simp [loopBody, h1, h2]
  · intro h1 h2
    simp [loopBody, h1, h2]
  · intro h1 h2
    simp [loopBody, h1, h2]
  · intro b hb h1 h2
    rcases hb with hb | hb <;> subst hb <;> simp [loopBody, h1, h2]
  · intro b hb h1 h2
    rcases hb with hb | hb | hb | hb | hb <;> subst hb <;> simp [loopBody, h1, h2]
  · intro b hb h1 h2
    rcases hb with hb | hb <;> subst hb <;> simp [loopBody, h1, h2]

/-- Witness for C1_continuation_policy: the 'Z' conjunct applied to the
concrete buffer mkZBuf 7. -/
theorem C1_witness :
    loopBody (mkZBuf 7) 0 zeroHandler
      = .next 9 { zeroHandler with current_filtered_co2 :=
          (((7 : Int) * ((zeroHandler.scaling_factor : Nat) : Int)) % 4294967296).toNat } :=
  (C1_continuation_policy (mkZBuf 7) 0 zeroHandler 7).1 rfl (by decide)

/-! ## Claim C2 -/

/-- Claim C2, counterexample to the claim as stated: on a receive
buffer of 128 zero bytes (which contains no line-feed terminator), the
scanner walks every byte without finding the terminator and then
attempts to read index 128 — one past the declared 128-byte capacity —
so it does not stay within the buffer for every buffer content. -/
theorem C2_counterexample :
    explorir_process_response 200 zeroHandler = .oob zeroHandler := by decide

/-- Claim C2, amended.  The scanner stays within the buffer and
terminates after at most (index of first line-feed) + 1 loop steps
provided the buffer contains a line-feed terminator and no earlier byte
is a recognized field tag: the scan walks byte by byte to the
terminator, exits, and clears the buffer.  Without those provisos it
can read past the capacity (see the counterexample: an all-zero,
terminator-free buffer) or loop (a 'Z' tag at offset 9 re-enters
itself). -/
theorem C2_bounded_scan (st : explorir_handler_t) (k fuel : Nat)
    (hk : readByte st.explorir_data k = some 10)
    (hpre : ∀ j, j < k →
      (readByte st.explorir_data j).all (fun b => decide (b ≠ 10) && !isTagByte b) = true)
    (hfuel : k < fuel) :
    explorir_process_response fuel st = .done (clearBuffer st) :=
  scanLoop_skip_region hk hpre fuel 0 st (by omega) (by omega)

def C2witH : explorir_handler_t :=
  { zeroHandler with explorir_data := [32, 63, 10] ++ List.replicate 125 0 }

/-- Witness for C2_bounded_scan: a buffer " ?\n..." whose first
line-feed is at index 2 with only skip bytes before it. -/
theorem C2_witness :
    readByte C2witH.explorir_data 2 = some 10
    ∧ (∀ j, j < 2 →
      (readByte C2witH.explorir_data j).all (fun b => decide (b ≠ 10) && !isTagByte b) = true)
    ∧ explorir_process_response 3 C2witH = .done (clearBuffer C2witH) :=
  ⟨by decide, by decide, C2_bounded_scan C2witH 2 3 (by decide) (by decide) (by decide)⟩

/-! ## Claim C4 -/

/-- Handler holding the valid scaling-factor reply ". 00005\r\n". -/
def C4aH : explorir_handler_t :=
  { zeroHandler with
    explorir_data := [46, 32, 48, 48, 48, 48, 53, 13, 10] ++ List.replicate 119 0 }

def C4bH : explorir_handler_t := clearBuffer { C4aH with scaling_factor := 5 }

/-- Claim C4, counterexample to the claim as stated: after a first call
parses the valid reply ". 00005\r\n" and zero-fills the buffer, the
second call on the zeroed buffer is not a no-op that completes: the
zeroed buffer contains no line-feed terminator, so the second call
scans all 128 zero bytes and attempts to read past the capacity
(outcome `.oob`, not `.done`). -/
theorem C4_counterexample :
    explorir_process_response 200 C4aH = .done C4bH
    ∧ C4bH.explorir_data = List.replicate 128 0
    ∧ explorir_process_response 200 C4bH = .oob C4bH
    ∧ explorir_process_response 200 C4bH ≠ .done C4bH := by decide

/-- Claim C4, amended.  Any call of the scanner that reaches the loop
exit leaves the receive buffer entirely zero-filled; but a second call
on that zeroed buffer is not a clean no-op: it changes no SensorState
field (the outcome returns the handler unchanged) yet, finding no
line-feed among the 128 zero bytes, it runs off the end of the buffer
(out-of-bounds read at index 128) instead of terminating. -/
theorem C4_clear_then_overrun (st h2 : explorir_handler_t) (fuel1 fuel2 : Nat)
    (h : explorir_process_response fuel1 st = .done h2) :
    h2.explorir_data = List.replicate 128 0
    ∧ (128 < fuel2 → explorir_process_response fuel2 h2 = .oob h2) := by
  have hcl : h2.explorir_data = List.replicate 128 0 :=
    scanLoop_done_cleared fuel1 0 st h2 h
  refine ⟨hcl, ?_⟩
  intro hf
  unfold explorir_process_response
  conv_lhs => rw [hcl]
  exact scanLoop_zero_tail (m := 0) (by simp)
    (fun j _ hj => readByte_replicate hj) fuel2 0 h2 (by omega) (by omega) (by omega)

/-- Witness for C4_clear_then_overrun at the concrete ". 00005\r\n"
first call. -/
theorem C4_witness :
    explorir_process_response 200 C4aH = .done C4bH
    ∧ C4bH.explorir_data = List.replicate 128 0
    ∧ (128 < 200 → explorir_process_response 200 C4bH = .oob C4bH) :=
  ⟨by decide, (C4_clear_then_overrun C4aH C4bH 200 200 (by decide)).1,
    (C4_clear_then_overrun C4aH C4bH 200 200 (by decide)).2⟩

/-! ## Claim C3 example theorems -/

/-- Handler holding "Z 99999\r\n" with the largest uint16 scaling
factor. -/
def C3cexH : explorir_handler_t :=
  { zeroHandler with
    explorir_data := mkZBuf 99999
    scaling_factor := 65535 }

/-- Claim C3, counterexample to the claim as stated: for v = 99999 and
scaling factor s = 65535 the product 99999 * 65535 = 6553434465 exceeds
2^32, and the `uint32_t` store keeps only 6553434465 mod 2^32 =
2258467169, so `current_filtered_co2 == v * s` fails (and the scan ends
in the out-of-bounds overrun, not a clean termination). -/
theorem C3_counterexample :
    explorir_process_response 200 C3cexH
      = .oob { C3cexH with current_filtered_co2 := 2258467169 }
    ∧ (2258467169 : Nat) ≠ 99999 * 65535 := by decide

def C3witH : explorir_handler_t :=
  { zeroHandler with
    explorir_data := mkZBuf 100
    scaling_factor := 1 }

/-- Witness for C3_filtered_store at v = 100, s = 1, fuel 121. -/
theorem C3_witness :
    (100 : Nat) ≤ 99999
    ∧ 100 * C3witH.scaling_factor < 4294967296
    ∧ explorir_process_response 121 C3witH
        = .oob { C3witH with current_filtered_co2 := 100 * C3witH.scaling_factor } :=
  ⟨by decide, by decide, C3_filtered_store C3witH 100 121 (by decide) rfl (by decide) (by decide)⟩

/-! ## Session-operation lemmas and claims C5, C7, C8, C10 -/

/-- Every transmitting operation records exactly its one frame in the
trace, whatever the subsequent parse does. -/
theorem txAndProcess_trace (fuel : Nat) (env : Nat → Option (List Nat)) (k : Nat)
    (msg : List Nat) (h : explorir_handler_t) :
    (txAndProcess fuel env k msg h).2.2 = [msg] := by
  unfold txAndProcess
  cases explorir_process_response fuel (applyDelivery env k h) <;> rfl

/-- Claim C5: for every digital-filter argument in the uint16 domain,
an argument at most 65365 is encoded and transmitted as exactly one
frame tag 'A', one space, the decimal ASCII digits of the argument
(digits only, value-faithful, no leading zero except the single '0'
for zero), then "\r\n", of total length 4 + digit count; an argument
above 65365 returns EXPLORIR_ERR_INVALID_INPUT with no transmission and
no handler change. -/
theorem C5_digital_filter_frame (fuel : Nat) (env : Nat → Option (List Nat))
    (k : Nat) (h : explorir_handler_t) (filter : Nat) (hu : filter < 65536) :
    (filter ≤ 65365 →
      (explorir_set_digital_filter fuel env k filter h).2.2
        = [[65, 32] ++ decDigits filter ++ [13, 10]]
      ∧ ([65, 32] ++ decDigits filter ++ [13, 10]).length = 4 + (decDigits filter).length
      ∧ (∀ c ∈ decDigits filter, 48 ≤ c ∧ c ≤ 57)
      ∧ digitsVal (decDigits filter) 0 = filter
      ∧ (1 ≤ filter → ∀ c, (decDigits filter).head? = some c → c ≠ 48)
      ∧ (filter = 0 → decDigits filter = [48]))
    ∧ (65365 < filter →
      explorir_set_digital_filter fuel env k filter h
        = (.rejected .EXPLORIR_ERR_INVALID_INPUT h, k, [])) := by
  constructor
  · intro hle
    refine ⟨?_, ?_, decDigits_all_digits filter, ?_,
      decDigits_head_ne_zero filter, ?_⟩
    · unfold explorir_set_digital_filter
      rw [if_neg (by simp only [MAX_DIGITAL_FILTER]; omega)]
      exact txAndProcess_trace fuel env k _ h
    · simp only [List.length_append, List.length_cons, List.length_nil]
      omega
    · have := digitsVal_decDigits filter 0
      simpa using this
    · intro h0
      subst h0
      decide
  · intro hgt
    unfold explorir_set_digital_filter
    rw [if_pos (by simp only [MAX_DIGITAL_FILTER]; omega)]

/-- Witness for C5_digital_filter_frame at the default filter value
16. -/
theorem C5_witness :
    (16 : Nat) < 65536
    ∧ (explorir_set_digital_filter 1 (fun _ => none) 0 16 zeroHandler).2.2
        = [[65, 32] ++ decDigits 16 ++ [13, 10]]
    ∧ decDigits 16 = [49, 54] :=
  ⟨by decide,
   ((C5_digital_filter_frame 1 (fun _ => none) 0 zeroHandler 16 (by decide)).1 (by decide)).1,
   by decide⟩

/-- Claim C7 (code bug): the auto-zero-interval command builds the
11-byte frame "@ 1.0 2.0\r\n" but transmits it with size argument 10,
so the wire actually carries only "@ 1.0 2.0\r" — ten bytes ending in
'\r' with the '\n' of the CR+LF terminator cut off. -/
theorem C7_truncated_frame (fuel : Nat) (env : Nat → Option (List Nat)) (k : Nat)
    (h : explorir_handler_t) :
    (explorir_set_auto_zero_intervals fuel env k 1 2 h).2.2
      = [[64, 32, 49, 46, 48, 32, 50, 46, 48, 13]]
    ∧ ([64, 32, 49, 46, 48, 32, 50, 46, 48, 13] : List Nat).length = 10
    ∧ ([64, 32, 49, 46, 48, 32, 50, 46, 48, 13] : List Nat).getLast? = some 13 := by
  refine ⟨?_, by decide, by decide⟩
  unfold explorir_set_auto_zero_intervals
  rw [if_neg (by omega)]
  exact txAndProcess_trace fuel env k _ h

/-- Claim C8: the mode-set command maps modes 1, 2, 0 to exactly the
frames "K 1\r\n", "K 2\r\n", "K 0\r\n" (each one transmission), and any
other integer is rejected with EXPLORIR_ERR_INVALID_MODE, handler
untouched and nothing transmitted. -/
theorem C8_mode_frames (fuel : Nat) (env : Nat → Option (List Nat)) (k : Nat)
    (h : explorir_handler_t) (mode : Int) :
    (explorir_set_operation_mode fuel env k 1 h).2.2 = [[75, 32, 49, 13, 10]]
    ∧ (explorir_set_operation_mode fuel env k 2 h).2.2 = [[75, 32, 50, 13, 10]]
    ∧ (explorir_set_operation_mode fuel env k 0 h).2.2 = [[75, 32, 48, 13, 10]]
    ∧ (mode ≠ 0 → mode ≠ 1 → mode ≠ 2 →
      explorir_set_operation_mode fuel env k mode h
        = (.rejected .EXPLORIR_ERR_INVALID_MODE h, k, [])) := by
  refine ⟨?_, ?_, ?_, ?_⟩
  · unfold explorir_set_operation_mode
    rw [if_pos (show (1 : Int) = EXPLORIR_MODE_STREAMING from rfl)]
    exact txAndProcess_trace fuel env k _ h
  · unfold explorir_set_operation_mode
    rw [if_neg (by decide), if_pos (show (2 : Int) = EXPLORIR_MODE_POLLING from rfl)]
    exact txAndProcess_trace fuel env k _ h
  · unfold explorir_set_operation_mode
    rw [if_neg (by decide), if_neg (by decide),
      if_pos (show (0 : Int) = EXPLORIR_MODE_COMMAND from rfl)]
    exact txAndProcess_trace fuel env k _ h
  · intro h0 h1 h2
    unfold explorir_set_operation_mode
    rw [if_neg (by simpa [EXPLORIR_MODE_STREAMING] using h1),
      if_neg (by simpa [EXPLORIR_MODE_POLLING] using h2),
      if_neg (by simpa [EXPLORIR_MODE_COMMAND] using h0)]

/-- Witness for C8_mode_frames: Streaming encodes to "K 1\r\n"; the
invalid mode 99 is rejected with no transmission. -/
theorem C8_witness :
    (explorir_set_operation_mode 1 (fun _ => none) 0 1 zeroHandler).2.2
      = [[75, 32, 49, 13, 10]]
    ∧ explorir_set_operation_mode 1 (fun _ => none) 0 99 zeroHandler
        = (.rejected .EXPLORIR_ERR_INVALID_MODE zeroHandler, 0, []) :=
  ⟨(C8_mode_frames 1 (fun _ => none) 0 zeroHandler 99).1,
   (C8_mode_frames 1 (fun _ => none) 0 zeroHandler 99).2.2.2
     (by decide) (by decide) (by decide)⟩

/-- Claim C10: every pre-transmission rejection (digital filter out of
range, unknown mode, auto-zero interval out of range) reports the error
only through the return value: the handler — its err_code field
included — is returned exactly as it was, the delivery counter does not
move and nothing is transmitted; so with a stored err_code of
EXPLORIR_SUCCESS the status just returned (EXPLORIR_ERR_INVALID_INPUT)
disagrees with the stored one. -/
theorem C10_rejection_frame_effect (fuel : Nat) (env : Nat → Option (List Nat))
    (k : Nat) (h : explorir_handler_t) :
    (∀ filter, 65365 < filter →
      explorir_set_digital_filter fuel env k filter h
        = (.rejected .EXPLORIR_ERR_INVALID_INPUT h, k, []))
    ∧ (∀ mode : Int, mode ≠ 0 → mode ≠ 1 → mode ≠ 2 →
      explorir_set_operation_mode fuel env k mode h
        = (.rejected .EXPLORIR_ERR_INVALID_MODE h, k, []))
    ∧ (∀ initial regular : Nat, (9 < initial ∨ 9 < regular) →
      explorir_set_auto_zero_intervals fuel env k initial regular h
        = (.rejected .EXPLORIR_ERR_INVALID_INPUT h, k, []))
    ∧ (h.err_code = .EXPLORIR_SUCCESS →
      (explorir_set_digital_filter fuel env k 65366 h).1
        = .rejected .EXPLORIR_ERR_INVALID_INPUT h
      ∧ explorir_retcode_t.EXPLORIR_ERR_INVALID_INPUT ≠ h.err_code) := by
  have hrej : ∀ filter, 65365 < filter →
      explorir_set_digital_filter fuel env k filter h
        = (.rejected .EXPLORIR_ERR_INVALID_INPUT h, k, []) := by
    intro filter hgt
    unfold explorir_set_digital_filter
    rw [if_pos (by simp only [MAX_DIGITAL_FILTER]; omega)]
  refine ⟨hrej, ?_, ?_, ?_⟩
  · intro mode h0 h1 h2
    unfold explorir_set_operation_mode
    rw [if_neg (by simpa [EXPLORIR_MODE_STREAMING] using h1),
      if_neg (by simpa [EXPLORIR_MODE_POLLING] using h2),
      if_neg (by simpa [EXPLORIR_MODE_COMMAND] using h0)]
  · intro initial regular hir
    unfold explorir_set_auto_zero_intervals
    rw [if_pos hir]
  · intro hs
    refine ⟨by rw [hrej 65366 (by omega)], ?_⟩
    rw [hs]
    decide

/-- Witness for C10_rejection_frame_effect at concrete rejected
arguments with a handler whose stored status is EXPLORIR_SUCCESS. -/
theorem C10_witness :
    explorir_set_digital_filter 1 (fun _ => none) 0 70000 zeroHandler
      = (.rejected .EXPLORIR_ERR_INVALID_INPUT zeroHandler, 0, [])
    ∧ explorir_set_auto_zero_intervals 1 (fun _ => none) 0 10 0 zeroHandler
      = (.rejected .EXPLORIR_ERR_INVALID_INPUT zeroHandler, 0, [])
    ∧ (explorir_set_digital_filter 1 (fun _ => none) 0 65366 zeroHandler).1
      = .rejected .EXPLORIR_ERR_INVALID_INPUT zeroHandler
    ∧ explorir_retcode_t.EXPLORIR_ERR_INVALID_INPUT ≠ zeroHandler.err_code :=
  ⟨(C10_rejection_frame_effect 1 (fun _ => none) 0 zeroHandler).1 70000 (by decide),
   (C10_rejection_frame_effect 1 (fun _ => none) 0 zeroHandler).2.2.1 10 0 (by decide),
   ((C10_rejection_frame_effect 1 (fun _ => none) 0 zeroHandler).2.2.2 rfl).1,
   ((C10_rejection_frame_effect 1 (fun _ => none) 0 zeroHandler).2.2.2 rfl).2⟩

/-! ## Claim C6: the busy wait -/

/-- If the completion flag reads false at every check up to the bound,
the wait loop runs the full RESPONSE_TIMEOUT iterations and records the
timeout in err_code. -/
theorem waitLoop_timeout (flag : Nat → Bool)
    (hfl : ∀ u, u ≤ RESPONSE_TIMEOUT → flag u = false) :
    ∀ fuel t h, t ≤ RESPONSE_TIMEOUT → RESPONSE_TIMEOUT + 1 - t ≤ fuel →
      explorir_wait_loop flag fuel t h = { h with err_code := .EXPLORIR_ERR_TIMEOUT } := by
  intro fuel
  induction fuel with
  | zero => intro t h ht hf; omega
  | succ f ih =>
    intro t h ht hf
    rw [explorir_wait_loop, hfl t ht]
    simp only [Bool.false_eq_true, if_false]
    by_cases heq : RESPONSE_TIMEOUT ≤ t
    · rw [if_pos heq]
    · rw [if_neg heq]
      exact ih (t + 1) h (by omega) (by omega)

/-- Claim C6, counterexample to the claim as stated: when no delivery
notification ever arrives, the busy wait does not leave every
SensorState field unchanged — it overwrites err_code (the stored
status) with EXPLORIR_ERR_TIMEOUT.  Starting from a handler whose
stored status is EXPLORIR_SUCCESS, the field differs after the call. -/
theorem C6_counterexample :
    (explorir_wait_for_response (fun _ => false) zeroHandler).1.err_code
      ≠ zeroHandler.err_code := by
  have hm := waitLoop_timeout (fun _ => false) (fun u _ => rfl)
    (RESPONSE_TIMEOUT + 1) 0 zeroHandler (by omega) (by omega)
  unfold explorir_wait_for_response
  rw [hm]
  decide

/-- Claim C6, amended.  If the delivery notification flag stays false
at every check within the RESPONSE_TIMEOUT-bounded busy wait, the wait
records the Timeout status in err_code — changing that one SensorState
field — and leaves every other field (scaling factor, both CO2
readings, digital filter, zero point, compensation, mode, receive
buffer) unchanged, and clears the notification flag.  Note that in the
shipped driver no session operation ever reaches this wait: every call
of explorir_wait_for_response is commented out, so the timeout status
is never produced by a session operation. -/
theorem C6_timeout_behavior (flag : Nat → Bool) (h : explorir_handler_t)
    (hfl : ∀ u, u ≤ RESPONSE_TIMEOUT → flag u = false) :
    explorir_wait_for_response flag h
      = ({ h with err_code := .EXPLORIR_ERR_TIMEOUT }, false)
    ∧ (explorir_wait_for_response flag h).1.scaling_factor = h.scaling_factor
    ∧ (explorir_wait_for_response flag h).1.current_filtered_co2 = h.current_filtered_co2
    ∧ (explorir_wait_for_response flag h).1.current_unfiltered_co2 = h.current_unfiltered_co2
    ∧ (explorir_wait_for_response flag h).1.digital_filter = h.digital_filter
    ∧ (explorir_wait_for_response flag h).1.zero_point = h.zero_point
    ∧ (explorir_wait_for_response flag h).1.pressure_and_concentration_compensation
        = h.pressure_and_concentration_compensation
    ∧ (explorir_wait_for_response flag h).1.current_mode = h.current_mode
    ∧ (explorir_wait_for_response flag h).1.explorir_data = h.explorir_data
    ∧ (explorir_wait_for_response flag h).1.err_code = .EXPLORIR_ERR_TIMEOUT := by
  have hm := waitLoop_timeout flag hfl (RESPONSE_TIMEOUT + 1) 0 h (by omega) (by omega)
  unfold explorir_wait_for_response
  rw [hm]
  exact ⟨rfl, rfl, rfl, rfl, rfl, rfl, rfl, rfl, rfl, rfl⟩

/-- Witness for C6_timeout_behavior with the constantly false flag. -/
theorem C6_witness :
    (∀ u, u ≤ RESPONSE_TIMEOUT → (fun (_ : Nat) => false) u = false)
    ∧ explorir_wait_for_response (fun _ => false) zeroHandler
        = ({ zeroHandler with err_code := .EXPLORIR_ERR_TIMEOUT }, false) :=
  ⟨fun _ _ => rfl,
   (C6_timeout_behavior (fun _ => false) zeroHandler (fun _ _ => rfl)).1⟩

/-! ## Claim C9: initialization -/

/-- Inversion of one initialization level: a successful overall run
means the step's parse completed, its code was stored, and the rest of
the run succeeded, the step's frame leading the trace. -/
theorem initChain_inv (s : SessionResult × Nat × List (List Nat))
    (rest : explorir_handler_t → Nat → Option explorir_handler_t × List (List Nat))
    (h9 : explorir_handler_t) (tr : List (List Nat))
    (hrun : initChain s rest = (some h9, tr)) :
    ∃ h1 tr2, initStep s.1 = some h1 ∧ rest h1 s.2.1 = (some h9, tr2)
      ∧ tr = s.2.2 ++ tr2 := by
  unfold initChain at hrun
  cases ho : initStep s.1 with
  | none =>
    rw [ho] at hrun
    exact absurd hrun (by simp)
  | some h1 =>
    rw [ho] at hrun
    simp only [Prod.mk.injEq] at hrun
    exact ⟨h1, (rest h1 s.2.1).2, rfl, Prod.ext hrun.1 rfl, hrun.2.symm⟩

theorem mode_command_trace (fuel : Nat) (env : Nat → Option (List Nat)) (k : Nat)
    (h : explorir_handler_t) :
    (explorir_set_operation_mode fuel env k EXPLORIR_MODE_COMMAND h).2.2
      = [[75, 32, 48, 13, 10]] := by
  unfold explorir_set_operation_mode
  rw [if_neg (by decide), if_neg (by decide), if_pos rfl]
  exact txAndProcess_trace fuel env k _ h

theorem mode_default_trace (fuel : Nat) (env : Nat → Option (List Nat)) (k : Nat)
    (h : explorir_handler_t) :
    (explorir_set_operation_mode fuel env k EXPLORIR_MODE_DEFAULT h).2.2
      = [[75, 32, 48, 13, 10]] := by
  unfold explorir_set_operation_mode
  rw [if_neg (by decide), if_neg (by decide),
    if_pos (show EXPLORIR_MODE_DEFAULT = EXPLORIR_MODE_COMMAND from rfl)]
  exact txAndProcess_trace fuel env k _ h

theorem sensor_info_trace (fuel : Nat) (env : Nat → Option (List Nat)) (k : Nat)
    (h : explorir_handler_t) :
    (explorir_request_sensor_info fuel env k h).2.2 = [[89, 13, 10]] := by
  unfold explorir_request_sensor_info
  cases explorir_process_response fuel (applyDelivery env k h) with
  | done h2 =>
    simp only []
    cases explorir_process_response fuel (applyDelivery env (k + 1) h2) <;> rfl
  | oob h2 => rfl
  | fuelOut => rfl

theorem digital_filter_default_trace (fuel : Nat) (env : Nat → Option (List Nat)) (k : Nat)
    (h : explorir_handler_t) :
    (explorir_set_digital_filter fuel env k DIGITAL_FILTER_DEFAULT h).2.2
      = [[65, 32, 49, 54, 13, 10]] := by
  unfold explorir_set_digital_filter
  rw [if_neg (by decide)]
  rw [txAndProcess_trace fuel env k _ h]
  decide

theorem scaling_factor_trace (fuel : Nat) (env : Nat → Option (List Nat)) (k : Nat)
    (h : explorir_handler_t) :
    (explorir_request_scaling_factor fuel env k h).2.2 = [[46, 13, 10]] :=
  txAndProcess_trace fuel env k [46, 13, 10] h

theorem pcc_trace (fuel : Nat) (env : Nat → Option (List Nat)) (k : Nat)
    (h : explorir_handler_t) :
    (explorir_request_pressure_and_concetration_compensation fuel env k h).2.2
      = [[115, 13, 10]] :=
  txAndProcess_trace fuel env k [115, 13, 10] h

theorem output_all_trace (fuel : Nat) (env : Nat → Option (List Nat)) (k : Nat)
    (h : explorir_handler_t) :
    (explorir_set_output_data_all fuel env k h).2.2
      = [[77, 32, 48, 48, 48, 48, 54, 13, 10]] :=
  txAndProcess_trace fuel env k [77, 32, 48, 48, 48, 48, 54, 13, 10] h

/-- Claim C9: whenever the initialization run completes (every parse
terminates in the model), the whole seven-step sequence was executed in
order — the trace is exactly the frames "K 0\r\n", "Y\r\n", ".\r\n",
"A 16\r\n", "s\r\n", "M 00006\r\n", "K 0\r\n" — no step result aborts
the sequence (each step's code is merely stored in err_code), and
afterwards the cached readings are reset to zero, the digital filter to
the default 16, and the mode to the default (Command, 0). -/
theorem C9_init_sequence (fuel : Nat) (env : Nat → Option (List Nat))
    (h h9 : explorir_handler_t) (tr : List (List Nat))
    (hrun : explorir_init fuel env h = (some h9, tr)) :
    h9.current_filtered_co2 = 0
    ∧ h9.current_unfiltered_co2 = 0
    ∧ h9.digital_filter = 16
    ∧ h9.current_mode = 0
    ∧ tr = [[75, 32, 48, 13, 10], [89, 13, 10], [46, 13, 10], [65, 32, 49, 54, 13, 10],
        [115, 13, 10], [77, 32, 48, 48, 48, 48, 54, 13, 10], [75, 32, 48, 13, 10]] := by
  unfold explorir_init at hrun
  obtain ⟨h1, t1, ho1, hrun, he1⟩ := initChain_inv _ _ _ _ hrun
  obtain ⟨h2, t2, ho2, hrun, he2⟩ := initChain_inv _ _ _ _ hrun
  obtain ⟨h3, t3, ho3, hrun, he3⟩ := initChain_inv _ _ _ _ hrun
  obtain ⟨h4, t4, ho4, hrun, he4⟩ := initChain_inv _ _ _ _ hrun
  obtain ⟨h5, t5, ho5, hrun, he5⟩ := initChain_inv _ _ _ _ hrun
  obtain ⟨h6, t6, ho6, hrun, he6⟩ := initChain_inv _ _ _ _ hrun
  obtain ⟨h7, t7, ho7, hrun, he7⟩ := initChain_inv _ _ _ _ hrun
  simp only [Prod.mk.injEq, Option.some.injEq] at hrun
  obtain ⟨hh9, ht7⟩ := hrun
  subst hh9
  subst ht7
  refine ⟨rfl, rfl, rfl, rfl, ?_⟩
  subst he1 he2 he3 he4 he5 he6 he7
  rw [mode_command_trace, sensor_info_trace, scaling_factor_trace,
    digital_filter_default_trace, pcc_trace, output_all_trace,
    mode_default_trace]
  rfl

def C9env : Nat → Option (List Nat) := fun _ => some [10]

/-- Witness for C9_init_sequence: with every delivery a bare
line-feed-led reply, the run completes and resets the cached fields. -/
theorem C9_witness :
    zeroHandler.current_filtered_co2 = 0
    ∧ zeroHandler.current_unfiltered_co2 = 0
    ∧ zeroHandler.digital_filter = 16
    ∧ zeroHandler.current_mode = 0
    ∧ ([[75, 32, 48, 13, 10], [89, 13, 10], [46, 13, 10], [65, 32, 49, 54, 13, 10],
        [115, 13, 10], [77, 32, 48, 48, 48, 48, 54, 13, 10],
        [75, 32, 48, 13, 10]] : List (List Nat))
      = [[75, 32, 48, 13, 10], [89, 13, 10], [46, 13, 10], [65, 32, 49, 54, 13, 10],
        [115, 13, 10], [77, 32, 48, 48, 48, 48, 54, 13, 10], [75, 32, 48, 13, 10]] :=
  C9_init_sequence 5 C9env zeroHandler zeroHandler _ (by decide)
